import Mathlib

/-!
Shallow embedding of the ericmjl-productivity-mcp server
(src/ericmjl_productivity_mcp/server.py and cli.py) together with proofs
about its capability registry, tools, resources, prompts, and transport
selection.

Conventions of the embedding:
- Python ints are modelled as `ℤ` (or `ℕ` for the random draw, which the
  source constrains to 1000..9999), Python true division and float
  arithmetic are modelled exactly over `ℚ`; every numeric value appearing
  in the verified claims is exactly representable, so the exact-rational
  model agrees with the binary floating point evaluation of the source.
- Python `f"{x:.1f}"` formatting is modelled by `formatFixed1`
  (round half to even at the tenths digit, rendered in decimal).
- `json.dumps(content, indent=2)` is modelled by `dumps` over an explicit
  JSON value type; a fuel-driven JSON reader `parseJson` is used to state
  that emitted payloads are well-formed JSON.
- The FastMCP dispatch machinery (registry lookup, argument binding,
  resource read envelope) is an external library, not part of the
  repository sources; those pieces are modelled from the spec and marked
  as such in their doc comments.  The registered names, handler bodies,
  parameter defaults, and transport logic all come from the source.
-/

namespace Mcp

set_option maxRecDepth 40000

/-- The double-quote character. -/
def quoteChar : Char := Char.ofNat 34

/-- The backslash character. -/
def backslashChar : Char := Char.ofNat 92

/-- The space character. -/
def spaceChar : Char := Char.ofNat 32

/-- The newline character. -/
def newlineChar : Char := Char.ofNat 10

/-- The comma character. -/
def commaChar : Char := Char.ofNat 44

/-- The colon character. -/
def colonChar : Char := Char.ofNat 58

/-- The left-bracket character. -/
def lbrackChar : Char := Char.ofNat 91

/-- The right-bracket character. -/
def rbrackChar : Char := Char.ofNat 93

/-- The left-brace character. -/
def lbraceChar : Char := Char.ofNat 123

/-- The right-brace character. -/
def rbraceChar : Char := Char.ofNat 125

/-- A run of `n` spaces, as produced by the indent of `json.dumps`. -/
def spaces (n : ℕ) : String := String.mk (List.replicate n spaceChar)

/-- Decimal digit character for a digit value below ten. -/
def digitChar (d : ℕ) : Char := Char.ofNat (48 + d)

/-- Little-endian decimal digits of `n`, driven by explicit fuel so that
the recursion is structural; fuel `n` is always sufficient. -/
def natDigitsAux : ℕ → ℕ → List ℕ
  | 0, _ => []
  | _ + 1, 0 => []
  | fuel + 1, n + 1 => ((n + 1) % 10) :: natDigitsAux fuel ((n + 1) / 10)

/-- Decimal rendering of a natural number, as Python `str` renders a
nonnegative int. -/
def natRepr (n : ℕ) : String :=
  if n = 0 then String.mk [digitChar 0]
  else String.mk ((natDigitsAux n n).reverse.map digitChar)

/-- Digit value of a decimal digit character; left inverse of `digitChar`
on digits below ten, used to prove decimal rendering injective. -/
def charDigit (c : Char) : ℕ := c.toNat - 48

/-- Decimal rendering of an integer, as Python `str` renders an int. -/
def intRepr (n : ℤ) : String :=
  if n < 0 then "-" ++ natRepr n.natAbs else natRepr n.toNat

/-- Value of a little-endian decimal digit list; inverse of `natDigitsAux`,
used to prove that decimal rendering is injective. -/
def ofDigitsLE : List ℕ → ℕ
  | [] => 0
  | d :: ds => d + 10 * ofDigitsLE ds

/-- Read the decimal value back from a rendered string; left inverse of
`natRepr`. -/
def reprVal (s : String) : ℕ := ofDigitsLE ((s.data.reverse).map charDigit)

/-- Does `pat` occur at the head of `s`? -/
def headMatches : List Char → List Char → Bool
  | [], _ => true
  | _ :: _, [] => false
  | a :: as, b :: bs => a = b && headMatches as bs

/-- Does `pat` occur anywhere in `s`? -/
def occursIn (pat s : List Char) : Bool :=
  match s with
  | [] => pat.isEmpty
  | _ :: rest => headMatches pat s || occursIn pat rest

/-- Substring test on strings (Python `in` on str). -/
def strContains (pat s : String) : Bool := occursIn pat.data s.data

/-- Join lines with newlines; used to transcribe the multi-line prompt
templates line by line. -/
def joinLines (ls : List String) : String := String.intercalate "\n" ls

/-- JSON values as they appear in the server resources: strings, arrays
and objects with ordered fields (Python dicts preserve insertion order). -/
inductive Json where
  | str : String → Json
  | arr : List Json → Json
  | obj : List (String × Json) → Json

/-- JSON string escaping (the resource contents only require quote and
backslash escapes, and contain neither). -/
def escapeChars : List Char → List Char
  | [] => []
  | c :: cs =>
    if c = quoteChar ∨ c = backslashChar then backslashChar :: c :: escapeChars cs
    else c :: escapeChars cs

/-- A JSON string literal with surrounding quotes. -/
def quoteStr (s : String) : String :=
  String.mk (quoteChar :: (escapeChars s.data ++ [quoteChar]))

mutual

/-- Serialization of a JSON value at indentation level `ind`, following the
layout of Python `json.dumps(content, indent=2)`. -/
def dumpVal (ind : ℕ) : Json → String
  | .str s => quoteStr s
  | .arr [] => "[]"
  | .arr (x :: xs) =>
    "[\n" ++ dumpArr (ind + 2) (x :: xs) ++ "\n" ++ spaces ind ++ "]"
  | .obj [] => "\x7b\x7d"
  | .obj (x :: xs) =>
    "\x7b\n" ++ dumpObj (ind + 2) (x :: xs) ++ "\n" ++ spaces ind ++ "\x7d"

/-- Serialization of the items of a nonempty JSON array. -/
def dumpArr (ind : ℕ) : List Json → String
  | [] => ""
  | [x] => spaces ind ++ dumpVal ind x
  | x :: y :: xs => spaces ind ++ dumpVal ind x ++ ",\n" ++ dumpArr ind (y :: xs)

/-- Serialization of the fields of a nonempty JSON object. -/
def dumpObj (ind : ℕ) : List (String × Json) → String
  | [] => ""
  | [(k, v)] => spaces ind ++ quoteStr k ++ ": " ++ dumpVal ind v
  | (k, v) :: y :: xs =>
    spaces ind ++ quoteStr k ++ ": " ++ dumpVal ind v ++ ",\n" ++ dumpObj ind (y :: xs)

end

/-- `json.dumps(content, indent=2)`. -/
def dumps (j : Json) : String := dumpVal 0 j

/-- Whitespace as it appears in `dumps` output. -/
def isWsChar (c : Char) : Bool := c = spaceChar ∨ c = newlineChar

/-- Drop leading whitespace. -/
def skipWs : List Char → List Char
  | [] => []
  | c :: rest => if isWsChar c then skipWs rest else c :: rest

/-- Read the body of a JSON string literal after its opening quote. -/
def parseStrBody : List Char → Option (String × List Char)
  | [] => none
  | c :: rest =>
    if c = quoteChar then some ("", rest)
    else if c = backslashChar then
      match rest with
      | [] => none
      | e :: rest2 =>
        if e = quoteChar ∨ e = backslashChar then
          match parseStrBody rest2 with
          | some (s, r) => some (String.mk (e :: s.data), r)
          | none => none
        else none
    else
      match parseStrBody rest with
      | some (s, r) => some (String.mk (c :: s.data), r)
      | none => none

mutual

/-- Fuel-driven reader for a JSON value (strings, arrays, objects). -/
def parseVal : ℕ → List Char → Option (Json × List Char)
  | 0, _ => none
  | fuel + 1, cs =>
    match skipWs cs with
    | [] => none
    | c :: rest =>
      if c = quoteChar then
        match parseStrBody rest with
        | some (s, r) => some (Json.str s, r)
        | none => none
      else if c = lbrackChar then
        match skipWs rest with
        | [] => none
        | d :: rest2 =>
          if d = rbrackChar then some (Json.arr [], rest2)
          else
            match parseArrItems fuel (d :: rest2) with
            | some (l, r) => some (Json.arr l, r)
            | none => none
      else if c = lbraceChar then
        match skipWs rest with
        | [] => none
        | d :: rest2 =>
          if d = rbraceChar then some (Json.obj [], rest2)
          else
            match parseObjItems fuel (d :: rest2) with
            | some (l, r) => some (Json.obj l, r)
            | none => none
      else none

/-- Reader for the items of a nonempty JSON array, up to the closing
bracket. -/
def parseArrItems : ℕ → List Char → Option (List Json × List Char)
  | 0, _ => none
  | fuel + 1, cs =>
    match parseVal fuel cs with
    | some (j, r) =>
      match skipWs r with
      | [] => none
      | c :: rest =>
        if c = commaChar then
          match parseArrItems fuel rest with
          | some (l, r2) => some (j :: l, r2)
          | none => none
        else if c = rbrackChar then some ([j], rest)
        else none
    | none => none

/-- Reader for the fields of a nonempty JSON object, up to the closing
brace. -/
def parseObjItems : ℕ → List Char → Option (List (String × Json) × List Char)
  | 0, _ => none
  | fuel + 1, cs =>
    match skipWs cs with
    | [] => none
    | c :: rest =>
      if c = quoteChar then
        match parseStrBody rest with
        | some (k, r) =>
          match skipWs r with
          | [] => none
          | d :: rest2 =>
            if d = colonChar then
              match parseVal fuel rest2 with
              | some (v, r2) =>
                match skipWs r2 with
                | [] => none
                | e :: rest3 =>
                  if e = commaChar then
                    match parseObjItems fuel rest3 with
                    | some (l, r3) => some ((k, v) :: l, r3)
                    | none => none
                  else if e = rbraceChar then some ([(k, v)], rest3)
                  else none
              | none => none
            else none
        | none => none
      else none

end

/-- Read a whole string as one JSON value with nothing but whitespace
after it. -/
def parseJson (s : String) : Option Json :=
  match parseVal 1000 s.data with
  | some (j, rest) => if (skipWs rest).isEmpty then some j else none
  | none => none

/-- Field lookup in a JSON object field list. -/
def lookupField (k : String) : List (String × Json) → Option Json
  | [] => none
  | (k2, v) :: rest => if k2 = k then some v else lookupField k rest

/-- Is this JSON value a string? -/
def isStrJson : Json → Bool
  | Json.str _ => true
  | _ => false

/-- Does this JSON value carry a `tips` field holding a nonempty array of
strings? -/
def tipsOk : Json → Bool
  | Json.obj fields =>
    match lookupField "tips" fields with
    | some (Json.arr l) => decide (0 < l.length) && l.all isStrJson
    | _ => false
  | _ => false

/-- Python `f"{x:.1f}"` on an exact rational: round half to even at the
tenths digit, then render sign, integer part, dot, tenths digit. -/
def formatFixed1 (q : ℚ) : String :=
  let t10 : ℤ := q.num * 10
  let d : ℤ := (q.den : ℤ)
  let fl : ℤ := Int.fdiv t10 d
  let rem : ℤ := Int.fmod t10 d
  let n : ℤ :=
    if 2 * rem < d then fl
    else if d < 2 * rem then fl + 1
    else if fl % 2 = 0 then fl else fl + 1
  if n < 0 then "-" ++ natRepr ((-n).toNat / 10) ++ "." ++ natRepr ((-n).toNat % 10)
  else natRepr (n.toNat / 10) ++ "." ++ natRepr (n.toNat % 10)

/-- Prompt `task_prioritization` from server.py: renders the template with
the bound `task_list` argument interpolated. -/
def task_prioritization (task_list : String) : String :=
  "You are a productivity expert. Help me prioritize my tasks\nby considering:\n1. Urgency (deadlines, time-sensitive)\n2. Importance (impact on goals, values)\n3. Energy levels required\n4. Dependencies between tasks\n\nPlease analyze this task list: " ++ task_list ++ "\nProvide a prioritized order with reasoning for each task."

/-- The declared default of the `task_list` parameter in the source
signature of `task_prioritization`. -/
def task_prioritization_default : String := "your tasks"

/-- Modelled from the spec: the argument binder for `get_prompt` on
`task_prioritization` (the binding step itself lives in the FastMCP
library, not in the repository sources); an absent optional argument is
replaced by the declared default, which is taken from the source
signature. -/
def get_prompt_task_prioritization (task_list : Option String) : String :=
  task_prioritization (task_list.getD task_prioritization_default)

/-- Prompt `devdigest` from server.py: renders the template with the
bound `timeframe` argument interpolated (twice); the template lines are
transcribed verbatim and joined by newlines. -/
def devdigest (timeframe : String) : String :=
  joinLines [
    "You are helping me create a comprehensive development digest",
    "that summarizes my GitHub activity and accomplishments. Follow these steps",
    "to gather and analyze my development work:",
    "",
    "1. **Gather GitHub Activity Data** using the GitHub CLI:",
    "    - **Commits**: Use `gh api /user/events` to get recent activity, or",
    "      `gh log --oneline --since=\"" ++ timeframe ++ "\"` for commit history",
    "    - **Pull Requests**: Use `gh pr list --author=@me --state=all",
    "      --limit=20` to get recent PRs",
    "    - **Issues**: Use `gh issue list --author=@me --state=all --limit=20`",
    "      to get issues I\x27ve created or commented on",
    "    - **Comments**: Use `gh api /user/issues/comments` and",
    "      `gh api /user/pulls/comments` for recent comments",
    "   - **Repositories**: Use `gh repo list --limit=10` to see recent repository activity",
    "   - **Stars/Activity**: Use `gh api /user/starred` for recently starred repositories",
    "",
    "2. **Analyze the Data** and identify:",
    "   - **Code Contributions**: Commits made, lines added/removed, files changed",
    "   - **Pull Request Activity**: PRs created, reviewed, merged, or closed",
    "   - **Issue Management**: Issues created, resolved, or participated in",
    "   - **Repository Work**: New repos created, existing repos updated",
    "   - **Community Engagement**: Comments, reviews, discussions participated in",
    "   - **Learning & Discovery**: Repositories starred, new technologies explored",
    "",
    "3. **Create a Structured Dev Log** with these sections:",
    "   - **📊 Summary Stats**: Total commits, PRs, issues, repositories worked on",
    "   - **🚀 Major Accomplishments**: Significant features, bug fixes, or improvements",
    "   - **🔧 Technical Work**: Code refactoring, architecture changes, tooling improvements",
    "   - **🤝 Collaboration**: PR reviews, issue discussions, community contributions",
    "   - **📚 Learning & Growth**: New technologies, patterns, or skills demonstrated",
    "    - **🎯 Project Highlights**: Notable projects or repositories with",
    "      significant activity",
    "    - **📈 Productivity Insights**: Patterns in work habits, peak activity",
    "      times, project focus areas",
    "",
    "4. **Format the Output** as a markdown document that:",
    "   - Uses clear headings and bullet points",
    "   - Includes specific metrics and numbers where possible",
    "   - Highlights the most impactful work",
    "   - Shows progression and growth over time",
    "   - Provides context for why certain work was important",
    "",
    "5. **Timeframe Context**: Focus on activity from " ++ timeframe ++ ", but also",
    "   note any longer-term trends or patterns.",
    "",
    "6. **Save the Digest**: Create or update a file called `DEV_DIGEST.md`",
    "   with the comprehensive summary.",
    "",
    "The goal is to create a professional, insightful summary that showcases",
    "development productivity, technical growth, and meaningful contributions",
    "to projects and the community. Use the GitHub CLI to gather as much",
    "relevant data as possible, then synthesize it into a compelling narrative",
    "of development accomplishments."]

/-- Modelled from the spec: the argument binder for `get_prompt` on
`devdigest` (the binding step lives in the FastMCP library); an absent
optional argument is replaced by the declared default `"last week"` from
the source signature. -/
def get_prompt_devdigest (timeframe : Option String) : String :=
  devdigest (timeframe.getD "last week")

/-- Prompt `upgrade_repo_to_template` from server.py: selects the
`yolo_instruction` text from the `yolo_mode` flag, then renders the
template with that instruction interpolated; the template lines are
transcribed verbatim and joined by newlines (the doubled braces of the
source f-string render as single literal braces). -/
def upgrade_repo_to_template (yolo_mode : Bool) : String :=
  let yolo_instruction : String :=
    if yolo_mode then
      "**YOLO MODE ENABLED**: The user has enabled yolo mode, which means you should automatically approve all suggested changes and proceed with implementation without asking for individual confirmations. Still present the full list of changes for transparency, but proceed directly to implementation after listing them."
    else
      "**APPROVAL REQUIRED**: Present each change individually and wait for user approval before proceeding. The user can approve, reject, or request modifications for each change."
  joinLines [
    "You are helping upgrade a repository to match the standards from the",
    "cookiecutter-python-project template (https://github.com/ericmjl/cookiecutter-python-project).",
    "Follow these phases systematically:",
    "",
    "## Phase 1: Analyze Current Repository Structure",
    "",
    "1. **Examine the repository structure**:",
    "   - List all files in the root directory",
    "   - Check for existing configuration files",
    "     (pyproject.toml, .pre-commit-config.yaml, mkdocs.yaml, etc.)",
    "   - Review the project structure and organization",
    "   - Identify the package/module structure",
    "   - Check for existing GitHub Actions workflows",
    "   - Review existing dependencies and tool configurations",
    "",
    "2. **Document current state**:",
    "   - Note what\x27s already present and what\x27s missing",
    "   - Identify any custom configurations that should be preserved",
    "   - Check for project-specific requirements that need to be maintained",
    "",
    "## Phase 2: Compare with CookieCutter Template Standards",
    "",
    "**CRITICAL FIRST STEP**: Clone or access the cookiecutter-python-project template",
    "repository to compare files directly:",
    "",
    "1. **Clone the template repository**:",
    "   - Run: `git clone https://github.com/ericmjl/cookiecutter-python-project.git",
    "     /tmp/cookiecutter-template`",
    "   - Or access it via GitHub API/web interface if cloning isn\x27t possible",
    "   - Navigate to the template directory to examine files",
    "",
    "2. **Compare files side-by-side**:",
    "   - For each configuration file in the template, compare it with the current repository",
    "   - Check for differences in structure, content, and configuration values",
    "   - Note which files exist in the template but are missing in the current repo",
    "   - Identify which existing files need updates to match template standards",
    "",
    "3. **Examine template structure**:",
    "   - Review the template\x27s directory structure",
    "   - Check the template files in the `\x7b cookiecutter.__repo_name \x7d` directory",
    "   - Note any template variables (\x7b cookiecutter.* \x7d) that need to be replaced",
    "   - Understand how the template is structured",
    "",
    "After accessing the template repository, identify the following key components that",
    "should be present in the upgraded repository:",
    "",
    "**Core Configuration Files:**",
    "- `pyproject.toml` with sections for:",
    "  - `[build-system]` (setuptools >=61.0, wheel)",
    "  - `[tool.interrogate]` (documentation coverage, fail-under: 100)",
    "  - `[tool.pytest.ini_options]` (test configuration with coverage)",
    "  - `[tool.ruff]` (line-length: 88, select: [\"E\", \"F\", \"I\"])",
    "  - `[tool.pydoclint]` (docstring linting)",
    "  - `[tool.coverage.run]` (coverage configuration)",
    "  - `[tool.pixi.project]` (channels: conda-forge, platforms)",
    "  - `[tool.pixi.pypi-dependencies]` (editable package install)",
    "  - `[tool.pixi.feature.tests.dependencies]` (pytest, pytest-cov, hypothesis)",
    "  - `[tool.pixi.feature.docs.dependencies]` (mkdocs, mkdocs-material, mknotebooks)",
    "  - `[tool.pixi.feature.notebook.dependencies]`",
    "    (ipykernel, ipython, jupyter, pixi-kernel)",
    "  - `[tool.pixi.feature.devtools.dependencies]` (pre-commit)",
    "  - `[tool.pixi.feature.tests.tasks]` (test: pytest)",
    "  - `[tool.pixi.feature.devtools.tasks]`",
    "    (lint: pre-commit run --all-files, commit: git commit)",
    "  - `[tool.pixi.feature.docs.tasks]`",
    "    (build-docs: mkdocs build, serve-docs: mkdocs serve)",
    "  - `[tool.pixi.feature.setup.tasks]`",
    "    (setup: pre-commit autoupdate && pre-commit install --install-hooks,",
    "     update: pre-commit autoupdate)",
    "  - `[tool.pixi.environments]` (default, docs, tests environments)",
    "  - `[project]` (name, version, requires-python, dependencies, readme, scripts)",
    "  - `[project.scripts]` (CLI entry points)",
    "",
    "- `.pre-commit-config.yaml` with hooks for:",
    "  - pre-commit-hooks (check-yaml, end-of-file-fixer, trailing-whitespace)",
    "  - nbstripout (for Jupyter notebooks)",
    "  - interrogate (documentation coverage)",
    "  - pydoclint (docstring linting)",
    "  - ruff-pre-commit (ruff-check and ruff-format)",
    "  - local pixi-install hook (to keep lockfile up-to-date)",
    "",
    "- `mkdocs.yaml` with:",
    "  - site_name and site_url configuration",
    "  - Material theme setup",
    "  - mknotebooks plugin configuration",
    "  - Markdown extensions (codehilite, admonition, pymdownx.superfences)",
    "  - Repository links and social links",
    "",
    "- `.gitignore` with Python-specific patterns:",
    "  - Standard Python ignores (__pycache__, *.pyc, etc.)",
    "  - Distribution/packaging ignores",
    "  - Testing/coverage ignores",
    "  - Environment ignores (.env, .venv, etc.)",
    "  - Documentation ignores (/site)",
    "  - Project-specific ignores (.pixi, .llamabot/, etc.)",
    "",
    "- `MANIFEST.in` for package distribution",
    "",
    "**GitHub Actions Workflows:**",
    "- `.github/workflows/pr-tests.yaml`:",
    "  - Runs tests on pull requests using pixi",
    "  - Includes bare-install test for multiple Python versions",
    "  - Uploads code coverage to codecov",
    "",
    "- `.github/workflows/docs.yaml`:",
    "  - Builds documentation on push to main",
    "  - Deploys to GitHub Pages",
    "",
    "- `.github/workflows/code-style.yaml`:",
    "  - Runs pre-commit hooks on pull requests",
    "",
    "- `.github/dependabot.yml`:",
    "  - Weekly updates for GitHub Actions",
    "",
    "**Project Structure:**",
    "- Proper package/module structure",
    "- Tests directory with pytest configuration",
    "- Documentation directory (docs/) for mkdocs",
    "- README.md with project information",
    "",
    "## Phase 3: Identify Required Changes",
    "",
    "**Use the cloned template repository** to create a comprehensive list of all changes",
    "needed. For each file in the template:",
    "",
    "1. **Read the template file** from the cloned repository",
    "2. **Compare with the current repository\x27s version** (if it exists)",
    "3. **Identify specific differences**:",
    "   - Missing sections or configurations",
    "   - Outdated values or versions",
    "   - Structural differences",
    "   - Missing files entirely",
    "",
    "Categorize all changes needed by type:",
    "",
    "**A. Files to Add:**",
    "- List any missing configuration files that need to be created",
    "- Include GitHub Actions workflows that are missing",
    "- Note any missing documentation structure",
    "",
    "**B. Files to Update:**",
    "- Identify existing files that need modifications to match template standards",
    "- Note specific sections that need updating (e.g., pyproject.toml sections)",
    "- Identify configuration mismatches",
    "",
    "**C. Commands to Run:**",
    "- `pre-commit autoupdate` (to update pre-commit hook versions)",
    "- `pre-commit install --install-hooks` (to install hooks)",
    "- `pixi install` (to update pixi.lock after configuration changes)",
    "- Any other setup commands needed",
    "",
    "**D. Project-Specific Adaptations:**",
    "- Note any project-specific values that need to be preserved:",
    "  - Package name and module name",
    "  - CLI entry points",
    "  - Project-specific dependencies",
    "  - Custom tasks or configurations",
    "  - Repository URLs and names",
    "",
    "For each change, provide:",
    "- **What**: Clear description of the change",
    "- **Why**: Reason it\x27s needed to match template standards",
    "- **Impact**: What will be affected by this change",
    "- **Preservation**: Any existing values that should be kept",
    "",
    "## Phase 4: Present Changes for Approval",
    "",
    yolo_instruction,
    "",
    "**Present the complete list of changes** organized by category:",
    "",
    "1. **Files to Add** (with brief descriptions)",
    "2. **Files to Update** (with specific sections/changes)",
    "3. **Commands to Run** (in order of execution)",
    "4. **Project-Specific Adaptations** (values to preserve)",
    "",
    "For each change, clearly state:",
    "- The change being made",
    "- Why it\x27s needed",
    "- What will be preserved from the current repository",
    "",
    "**If NOT in yolo mode:**",
    "- Present changes ONE AT A TIME or in small logical groups",
    "- Wait for user approval before proceeding to the next change",
    "- Allow user to approve, reject, or request modifications",
    "- Respect user decisions and adapt accordingly",
    "",
    "**If in yolo mode:**",
    "- Present the full list for transparency",
    "- Proceed directly to implementation after listing",
    "- Still preserve project-specific values appropriately",
    "",
    "## Phase 5: Implement Approved Changes",
    "",
    "After receiving approval (or in yolo mode), implement changes systematically using",
    "the cloned template repository as the source:",
    "",
    "1. **Add new files**:",
    "   - Copy files directly from the cloned template repository",
    "   - Read the template file content and adapt it for the current project",
    "   - Replace template variables (\x7b cookiecutter.* \x7d) with actual project values",
    "   - Preserve any project-specific customizations that exist",
    "",
    "2. **Update existing files**:",
    "   - Merge template configurations with existing ones",
    "   - Preserve project-specific dependencies and settings",
    "   - Update only the sections that need to match template standards",
    "   - Be careful not to overwrite project-specific configurations",
    "",
    "3. **Run setup commands**:",
    "   - Run `pre-commit autoupdate` to update hook versions",
    "   - Run `pre-commit install --install-hooks` to install hooks",
    "   - Run `pixi install` to update the lockfile",
    "   - Verify commands complete successfully",
    "",
    "4. **Verify file integrity**:",
    "   - Check that all files were created/updated correctly",
    "   - Ensure project-specific values were preserved",
    "   - Verify configurations are valid (e.g., TOML syntax)",
    "",
    "## Phase 6: Verification",
    "",
    "After implementation, verify the migration:",
    "",
    "1. **Run `pixi shell`**:",
    "   - This activates the pixi environment and verifies basic setup",
    "   - Check that the environment activates without errors",
    "   - Verify that dependencies resolve correctly",
    "",
    "2. **Test basic functionality**:",
    "   - Run `pixi run test` to ensure tests still work",
    "   - Run `pixi run lint` to verify linting setup",
    "   - Check that CLI entry points work (if applicable)",
    "",
    "3. **Verify configurations**:",
    "   - Check that pre-commit hooks are installed",
    "   - Verify GitHub Actions workflows are valid",
    "   - Ensure documentation builds (if applicable)",
    "",
    "4. **Report completion**:",
    "   - Summarize what was changed",
    "   - Note any issues encountered",
    "   - Provide next steps or recommendations",
    "",
    "## Important Guidelines",
    "",
    "- **Preserve project-specific values**: Always maintain project name,",
    "  module name, dependencies, and custom configurations",
    "- **Merge, don\x27t replace**: When updating existing files, merge template",
    "  standards with existing configurations",
    "- **Test incrementally**: After major changes, verify the project still works",
    "- **Document changes**: Note what was changed and why for future reference",
    "- **Respect user decisions**: If user rejects a change, accept it and move on",
    "",
    "The goal is to upgrade the repository to match template standards while",
    "preserving all project-specific customizations and ensuring everything",
    "continues to work correctly."]

/-- Modelled from the spec: the argument binder for `get_prompt` on
`upgrade_repo_to_template` (the binding step lives in the FastMCP
library); an absent optional argument is replaced by the declared default
`False` from the source signature. -/
def get_prompt_upgrade_repo_to_template (yolo_mode : Option Bool) : String :=
  upgrade_repo_to_template (yolo_mode.getD false)

/-- Resource `resource://productivity_methods` content dictionary from
server.py. -/
def productivity_methods_content : Json :=
  Json.obj [("methods", Json.arr [
    Json.obj [
      ("name", Json.str "Getting Things Done (GTD)"),
      ("description", Json.str "A workflow methodology for organizing tasks and projects"),
      ("key_principles", Json.arr [
        Json.str "Capture", Json.str "Clarify", Json.str "Organize",
        Json.str "Reflect", Json.str "Engage"])],
    Json.obj [
      ("name", Json.str "Pomodoro Technique"),
      ("description", Json.str "Time management method using 25-minute focused work sessions"),
      ("key_principles", Json.arr [
        Json.str "Work in sprints", Json.str "Take breaks", Json.str "Track progress"])],
    Json.obj [
      ("name", Json.str "Eisenhower Matrix"),
      ("description", Json.str "Prioritization framework based on urgency and importance"),
      ("key_principles", Json.arr [
        Json.str "Urgent & Important", Json.str "Not Urgent & Important",
        Json.str "Urgent & Not Important", Json.str "Not Urgent & Not Important"])]])]

/-- Resource handler `productivity_methods`: returns
`json.dumps(content, indent=2)`. -/
def productivity_methods : String := dumps productivity_methods_content

/-- Resource `resource://focus_tips` content dictionary from server.py. -/
def focus_tips_content : Json :=
  Json.obj [("tips", Json.arr [
    Json.str "Use noise-canceling headphones or ambient sounds to block distractions",
    Json.str "Put your phone in another room or use focus mode",
    Json.str "Set up a dedicated workspace with good lighting",
    Json.str "Take regular breaks every 25-45 minutes",
    Json.str "Use the \x27two-minute rule\x27 for quick tasks",
    Json.str "Batch similar activities together",
    Json.str "Practice mindfulness meditation to improve attention span"])]

/-- Resource handler `focus_tips`: returns `json.dumps(content, indent=2)`. -/
def focus_tips : String := dumps focus_tips_content

/-- Resource `resource://energy_management` content dictionary from
server.py. -/
def energy_management_content : Json :=
  Json.obj [
    ("peak_hours", Json.str "Identify your natural energy peaks (usually morning or afternoon)"),
    ("energy_types", Json.obj [
      ("physical", Json.str "Exercise, nutrition, sleep quality"),
      ("emotional", Json.str "Stress management, relationships, mood"),
      ("mental", Json.str "Learning, problem-solving, creativity"),
      ("spiritual", Json.str "Purpose, values, meaning")]),
    ("recovery_strategies", Json.arr [
      Json.str "Power naps (10-20 minutes)",
      Json.str "Short walks in nature",
      Json.str "Deep breathing exercises",
      Json.str "Hydration and healthy snacks"])]

/-- Resource handler `energy_management`: returns
`json.dumps(content, indent=2)`. -/
def energy_management : String := dumps energy_management_content

/-- The minted task identifier `f"task_{random.randint(1000, 9999)}"`,
with the random draw `r` passed explicitly. -/
def taskId (r : ℕ) : String := "task_" ++ natRepr r

/-- Tool `create_task` from server.py; the draw of
`random.randint(1000, 9999)` is modelled as the explicit argument `r`. -/
def create_task (task priority category : String) (r : ℕ) : String :=
  "Created task \x27" ++ task ++ "\x27 with ID " ++ taskId r ++ ", priority: " ++ priority ++ ", category: " ++ category

/-- The text of `create_task` up to the minted identifier. -/
def create_task_surround_pre (task : String) : String :=
  "Created task \x27" ++ task ++ "\x27 with ID "

/-- The text of `create_task` after the minted identifier. -/
def create_task_surround_post (priority category : String) : String :=
  ", priority: " ++ priority ++ ", category: " ++ category

/-- Modelled from the spec: the argument binder for `call_tool` on
`create_task` (the binding step lives in the FastMCP library); absent
optional arguments are replaced by the declared defaults, which are taken
from the source signature. -/
def bind_create_task (task : String) (priority category : Option String) (r : ℕ) : String :=
  create_task task (priority.getD "medium") (category.getD "general") r

/-- Tool `time_block` from server.py. -/
def time_block (start_time : String) (duration_minutes : ℤ) (activity : String) : String :=
  "Time block created: " ++ start_time ++ " for " ++ intRepr duration_minutes ++ " minutes - " ++ activity

/-- `completion_rate` local of tool `productivity_score`:
`(completed_tasks / planned_tasks * 100) if planned_tasks > 0 else 0`. -/
def completion_rate (completed_tasks planned_tasks : ℤ) : ℚ :=
  if planned_tasks > 0 then (completed_tasks : ℚ) / (planned_tasks : ℚ) * 100 else 0

/-- `focus_hours` local of tool `productivity_score`:
`focus_time_minutes / 60`. -/
def focus_hours (focus_time_minutes : ℤ) : ℚ := (focus_time_minutes : ℚ) / 60

/-- `score` local of tool `productivity_score`:
`min(100, (completion_rate * 0.7) + (focus_hours * 2))`. -/
def score (completed_tasks planned_tasks focus_time_minutes : ℤ) : ℚ :=
  min 100 (completion_rate completed_tasks planned_tasks * (7 / 10)
    + focus_hours focus_time_minutes * 2)

/-- Tool `productivity_score` from server.py: the rendered response text. -/
def productivity_score (completed_tasks planned_tasks focus_time_minutes : ℤ) : String :=
  "Productivity Score: " ++ formatFixed1 (score completed_tasks planned_tasks focus_time_minutes)
    ++ "/100\n" ++ "Completion Rate: " ++ formatFixed1 (completion_rate completed_tasks planned_tasks)
    ++ "%\n" ++ "Focus Time: " ++ formatFixed1 (focus_hours focus_time_minutes) ++ " hours"

/-- The prompt names registered by `@mcp.prompt()` decorators, in source
order. -/
def prompt_names : List String :=
  ["task_prioritization", "log_progress", "remember", "correction",
   "add_markdownlint_rules", "git_branch_and_stage", "debug_github_actions",
   "devdigest", "code_review", "pre_commit_review", "present_issues",
   "frontend_aesthetics", "upgrade_repo_to_template", "fix_pre_commit_issues",
   "create_obsidian_moc", "add_note_to_mocs", "update_obsidian_moc",
   "edit_blog_post"]

/-- The resource URIs registered by `@mcp.resource(...)` decorators, in
source order. -/
def resource_uris : List String :=
  ["resource://productivity_methods", "resource://focus_tips",
   "resource://energy_management"]

/-- The tool names registered by `@mcp.tool()` decorators, in source
order. -/
def tool_names : List String := ["create_task", "time_block", "productivity_score"]

/-- The runtime error taxonomy of the dispatcher. -/
inductive McpError where
  | UnknownCapability : McpError
  | UnsupportedOperation : McpError
  | MissingRequiredArgument : String → McpError
  | InvalidArguments : McpError
  | ExecutionFailure : McpError
deriving DecidableEq

/-- Modelled from the spec: registry lookup (the registry machinery lives
in the FastMCP library); lookup on a registered name succeeds with its
descriptor and on any other name fails with `UnknownCapability`. -/
def lookup (registry : List String) (name : String) : Except McpError String :=
  if name ∈ registry then Except.ok name else Except.error McpError.UnknownCapability

/-- Modelled from the spec: the dispatcher routing stage of `call_tool`
(the dispatcher lives in the FastMCP library); an unknown tool name fails
with `UnknownCapability`, and an `Except.error` result carries no output
payload at all. -/
def call_tool_route (name : String) : Except McpError String := lookup tool_names name

/-- A read-resource payload: declared MIME type plus body text. -/
structure ResourcePayload where
  mimeType : String
  text : String

/-- Modelled from the spec: the read-resource envelope (the resource read
machinery lives in the FastMCP library); a registered URI yields its
handler output as a text payload with declared MIME type
`application/json` for these structured resources, an unknown URI fails
with `UnknownCapability`. -/
def read_resource (uri : String) : Except McpError ResourcePayload :=
  if uri = "resource://productivity_methods" then
    Except.ok ⟨"application/json", productivity_methods⟩
  else if uri = "resource://focus_tips" then
    Except.ok ⟨"application/json", focus_tips⟩
  else if uri = "resource://energy_management" then
    Except.ok ⟨"application/json", energy_management⟩
  else Except.error McpError.UnknownCapability

/-- The two transport kinds of the transport-selection layer. -/
inductive Transport where
  | stdio : Transport
  | http : Transport
deriving DecidableEq

/-- Observable outcome of starting the server: the console messages
printed and the transport actually served. -/
structure ServerRun where
  messages : List String
  transport_used : Transport

/-- The console notice printed by the HTTP stub in server.py. -/
def http_stub_notice : String :=
  "HTTP transport not yet implemented. Use stdio transport instead."

/-- `run_server_stdio` from server.py: `await mcp.run()` over standard
streams. -/
def run_server_stdio : ServerRun := ⟨[], Transport.stdio⟩

/-- `run_server_http` from server.py: prints the stub notice, then runs
`run_server_stdio`. -/
def run_server_http (port : ℤ) : ServerRun :=
  ⟨http_stub_notice :: run_server_stdio.messages, run_server_stdio.transport_used⟩

/-- `run_server` from server.py: prints the stub notice when the
configured transport is `"http"`, then always calls `mcp.run()` (the
stdio transport). -/
def run_server (transport : String) (port : ℤ) (auto_reload : Bool) : ServerRun :=
  ⟨(if transport = "http" then [http_stub_notice] else []) ++ run_server_stdio.messages,
   run_server_stdio.transport_used⟩

/-- Every digit produced by `natDigitsAux` is below ten. -/
theorem natDigitsAux_mem_lt : ∀ (fuel n x : ℕ), x ∈ natDigitsAux fuel n → x < 10 := by
  intro fuel
  induction fuel with
  | zero => intro n x h; simp [natDigitsAux] at h
  | succ f ih =>
    intro n x h
    cases n with
    | zero => simp [natDigitsAux] at h
    | succ m =>
      simp only [natDigitsAux, List.mem_cons] at h
      rcases h with h | h
      · subst h; exact Nat.mod_lt _ (by omega)
      · exact ih _ _ h

/-- `ofDigitsLE` undoes `natDigitsAux` whenever the fuel is sufficient. -/
theorem ofDigitsLE_natDigitsAux : ∀ (fuel n : ℕ), n ≤ fuel →
    ofDigitsLE (natDigitsAux fuel n) = n := by
  intro fuel
  induction fuel with
  | zero =>
    intro n h
    have hn : n = 0 := by omega
    subst hn
    simp [natDigitsAux, ofDigitsLE]
  | succ f ih =>
    intro n h
    cases n with
    | zero => simp [natDigitsAux, ofDigitsLE]
    | succ m =>
      have hdiv : (m + 1) / 10 ≤ f := by
        have hlt : (m + 1) / 10 < m + 1 := Nat.div_lt_self (Nat.succ_pos m) (by omega)
        omega
      simp only [natDigitsAux, ofDigitsLE]
      rw [ih _ hdiv]
      omega

/-- `charDigit` undoes `digitChar` on digits below ten. -/
theorem charDigit_digitChar : ∀ d : ℕ, d < 10 → charDigit (digitChar d) = d := by decide

/-- Mapping `digitChar` then `charDigit` over a digit list is the
identity. -/
theorem map_charDigit_digitChar : ∀ (l : List ℕ), (∀ x ∈ l, x < 10) →
    (l.map digitChar).map charDigit = l := by
  intro l
  induction l with
  | nil => intro _; rfl
  | cons a as ih =>
    intro h
    have ha : a < 10 := h a (by simp)
    simp only [List.map_cons, charDigit_digitChar a ha]
    rw [ih (fun x hx => h x (by simp [hx]))]

/-- Reading the decimal value back from a rendered natural number returns
that number. -/
theorem reprVal_natRepr : ∀ n : ℕ, reprVal (natRepr n) = n := by
  intro n
  by_cases h : n = 0
  · subst h; rfl
  · simp only [natRepr, if_neg h, reprVal]
    show ofDigitsLE ((((natDigitsAux n n).reverse.map digitChar).reverse).map charDigit) = n
    rw [List.map_reverse,
      map_charDigit_digitChar _ (fun x hx => natDigitsAux_mem_lt n n x (List.mem_reverse.mp hx)),
      List.reverse_reverse]
    exact ofDigitsLE_natDigitsAux n n le_rfl

/-- Decimal rendering of natural numbers is injective. -/
theorem natRepr_injective : ∀ a b : ℕ, natRepr a = natRepr b → a = b := by
  intro a b h
  rw [← reprVal_natRepr a, ← reprVal_natRepr b, h]

/-- Strings with equal character data are equal. -/
theorem str_of_data_eq : ∀ s t : String, s.data = t.data → s = t := by
  intro s t h
  cases s
  cases t
  exact congrArg String.mk h

/-- Distinct random draws mint distinct task identifiers. -/
theorem taskId_inj : ∀ r1 r2 : ℕ, taskId r1 = taskId r2 → r1 = r2 := by
  intro r1 r2 h
  have hd := congrArg String.data h
  simp only [taskId, String.data_append] at hd
  exact natRepr_injective r1 r2 (str_of_data_eq _ _ (List.append_cancel_left hd))

/-- Claim C1: starting the server with the http transport selected does
not serve HTTP: the source prints the stub notice and serves the stdio
transport instead, so the transport actually used is not the configured
one. -/
theorem http_transport_falls_back_to_stdio :
    (run_server "http" 9247 true).transport_used = Transport.stdio ∧
    (run_server "http" 9247 true).transport_used ≠ Transport.http ∧
    (run_server "http" 9247 true).messages = [http_stub_notice] ∧
    (run_server_http 9247).transport_used = Transport.stdio :=
  ⟨rfl, by decide, rfl, rfl⟩

/-- Claim C2: on completed_tasks=8, planned_tasks=10,
focus_time_minutes=120 the productivity_score tool computes completion
rate 80, focus hours 2, score min(100, 80*0.7 + 2*2) = 60, and its text
contains the substring 60.0/100. -/
theorem productivity_score_example_8_10_120 :
    completion_rate 8 10 = 80 ∧ focus_hours 120 = 2 ∧ score 8 10 120 = 60 ∧
    strContains "60.0/100" (productivity_score 8 10 120) = true := by
  have hcr : completion_rate 8 10 = 80 := by unfold completion_rate; norm_num
  have hfh : focus_hours 120 = 2 := by unfold focus_hours; norm_num
  have hsum : (80 : ℚ) * (7 / 10) + 2 * 2 = 60 := by norm_num
  have hsc : score 8 10 120 = 60 := by
    unfold score
    rw [hcr, hfh, hsum, min_def]
    norm_num
  refine ⟨hcr, hfh, hsc, ?_⟩
  simp only [productivity_score, hcr, hfh, hsc]
  decide

/-- Claim C3: with planned_tasks = 0 the completion rate is defined as 0
(no division happens), and on completed_tasks=5, planned_tasks=0,
focus_time_minutes=60 the score is min(100, 0 + 1*2) = 2 and the full
response text is well-defined. -/
theorem productivity_score_zero_planned_guarded :
    (∀ completed : ℤ, completion_rate completed 0 = 0) ∧
    score 5 0 60 = 2 ∧
    productivity_score 5 0 60 =
      "Productivity Score: 2.0/100\nCompletion Rate: 0.0%\nFocus Time: 1.0 hours" := by
  have hzero : ∀ completed : ℤ, completion_rate completed 0 = 0 := by
    intro c
    unfold completion_rate
    norm_num
  have hcr : completion_rate 5 0 = 0 := hzero 5
  have hfh : focus_hours 60 = 1 := by unfold focus_hours; norm_num
  have hsum : (0 : ℚ) * (7 / 10) + 1 * 2 = 2 := by norm_num
  have hsc : score 5 0 60 = 2 := by
    unfold score
    rw [hcr, hfh, hsum, min_def]
    norm_num
  refine ⟨hzero, hsc, ?_⟩
  simp only [productivity_score, hcr, hfh, hsc]
  decide

/-- Claim C4: reading resource://focus_tips yields MIME type
application/json and a body that parses as JSON holding a tips array with
at least one string entry. -/
theorem focus_tips_resource_json_with_tips :
    read_resource "resource://focus_tips" = Except.ok ⟨"application/json", focus_tips⟩ ∧
    parseJson focus_tips = some focus_tips_content ∧
    tipsOk focus_tips_content = true :=
  ⟨rfl, rfl, rfl⟩

/-- Claim C5: for each of the five declared-optional prompt and tool
parameters of the source (task_prioritization.task_list,
create_task.priority, create_task.category, devdigest.timeframe,
upgrade_repo_to_template.yolo_mode), omitting the argument binds the
declared default and passing the default explicitly is observationally
identical to omitting the argument; in particular the
task_prioritization prompt with no arguments renders text containing the
substring your tasks. -/
theorem optional_defaults_round_trip :
    (∀ v : String, v = task_prioritization_default →
      get_prompt_task_prioritization (some v) = get_prompt_task_prioritization none) ∧
    (∀ (task : String) (r : ℕ) (v : String), v = "medium" →
      bind_create_task task (some v) none r = bind_create_task task none none r) ∧
    (∀ (task : String) (r : ℕ) (v : String), v = "general" →
      bind_create_task task none (some v) r = bind_create_task task none none r) ∧
    (∀ v : String, v = "last week" →
      get_prompt_devdigest (some v) = get_prompt_devdigest none) ∧
    (∀ b : Bool, b = false →
      get_prompt_upgrade_repo_to_template (some b) = get_prompt_upgrade_repo_to_template none) ∧
    strContains "your tasks" (get_prompt_task_prioritization none) = true := by
  refine ⟨?_, ?_, ?_, ?_, ?_, ?_⟩
  · intro v hv; subst hv; rfl
  · intro t r v hv; subst hv; rfl
  · intro t r v hv; subst hv; rfl
  · intro v hv; subst hv; rfl
  · intro b hb; subst hb; rfl
  · decide

/-- Witness for C5 at the concrete defaults of all five optional
parameters. -/
theorem optional_defaults_round_trip_witness :
    get_prompt_task_prioritization (some "your tasks") = get_prompt_task_prioritization none ∧
    bind_create_task "write report" (some "medium") none 1234 =
      bind_create_task "write report" none none 1234 ∧
    bind_create_task "write report" none (some "general") 1234 =
      bind_create_task "write report" none none 1234 ∧
    get_prompt_devdigest (some "last week") = get_prompt_devdigest none ∧
    get_prompt_upgrade_repo_to_template (some false) =
      get_prompt_upgrade_repo_to_template none :=
  ⟨optional_defaults_round_trip.1 "your tasks" rfl,
   optional_defaults_round_trip.2.1 "write report" 1234 "medium" rfl,
   optional_defaults_round_trip.2.2.1 "write report" 1234 "general" rfl,
   optional_defaults_round_trip.2.2.2.1 "last week" rfl,
   optional_defaults_round_trip.2.2.2.2.1 false rfl⟩

/-- Claim C6: the time_block tool on start_time 09:00, 30 minutes,
activity writing returns exactly the specified text. -/
theorem time_block_example_exact_text :
    time_block "09:00" 30 "writing" = "Time block created: 09:00 for 30 minutes - writing" := by
  decide

/-- Claim C7: registry lookup succeeds on every registered name and fails
with UnknownCapability on every unregistered name; in particular
call_tool on unknown_tool routes to the UnknownCapability error with no
output payload. -/
theorem lookup_registered_succeeds_unregistered_fails :
    (∀ (registry : List String) (name : String), name ∈ registry →
      lookup registry name = Except.ok name) ∧
    (∀ (registry : List String) (name : String), name ∉ registry →
      lookup registry name = Except.error McpError.UnknownCapability) ∧
    call_tool_route "unknown_tool" = Except.error McpError.UnknownCapability := by
  refine ⟨?_, ?_, rfl⟩
  · intro reg n h; simp [lookup, h]
  · intro reg n h; simp [lookup, h]

/-- Witness for C7 on the concrete registries. -/
theorem lookup_registered_succeeds_unregistered_fails_witness :
    lookup tool_names "create_task" = Except.ok "create_task" ∧
    lookup prompt_names "no_such_prompt" = Except.error McpError.UnknownCapability :=
  ⟨lookup_registered_succeeds_unregistered_fails.1 tool_names "create_task" (by decide),
   lookup_registered_succeeds_unregistered_fails.2.1 prompt_names "no_such_prompt" (by decide)⟩

/-- Counterexample to C8 as stated: both random draws can be 1234 (a
value randint(1000, 9999) can return twice), in which case two
create_task calls with identical arguments mint equal identifiers and
produce identical output, so the minted identifiers are not always
different. -/
theorem create_task_identifier_collision :
    (1000 ≤ 1234 ∧ 1234 ≤ 9999) ∧
    create_task "write report" "medium" "general" 1234 =
      create_task "write report" "medium" "general" 1234 ∧
    ¬ (∀ r1 r2 : ℕ, 1000 ≤ r1 → r1 ≤ 9999 → 1000 ≤ r2 → r2 ≤ 9999 →
        taskId r1 ≠ taskId r2) :=
  ⟨⟨by norm_num, by norm_num⟩, rfl,
   fun hclaim => hclaim 1234 1234 (by norm_num) (by norm_num) (by norm_num) (by norm_num) rfl⟩

/-- Claim C8 as amended: whenever the two random draws differ the two
minted identifiers differ, and the surrounding text structure of the two
outputs is always identical (each output is the same fixed prefix and
suffix around its identifier). -/
theorem create_task_distinct_draws_distinct_ids :
    ∀ (task priority category : String) (r1 r2 : ℕ), r1 ≠ r2 →
      taskId r1 ≠ taskId r2 ∧
      create_task task priority category r1 =
        create_task_surround_pre task ++ (taskId r1 ++ create_task_surround_post priority category) ∧
      create_task task priority category r2 =
        create_task_surround_pre task ++ (taskId r2 ++ create_task_surround_post priority category) := by
  intro t p c r1 r2 hne
  refine ⟨fun h => hne (taskId_inj r1 r2 h), ?_, ?_⟩
  · apply str_of_data_eq
    simp [create_task, create_task_surround_pre, create_task_surround_post,
      String.data_append, List.append_assoc]
  · apply str_of_data_eq
    simp [create_task, create_task_surround_pre, create_task_surround_post,
      String.data_append, List.append_assoc]

/-- Witness for C8 amended at two concrete distinct draws. -/
theorem create_task_distinct_draws_distinct_ids_witness :
    taskId 1001 ≠ taskId 1002 ∧
    create_task "write report" "high" "work" 1001 =
      create_task_surround_pre "write report" ++
        (taskId 1001 ++ create_task_surround_post "high" "work") ∧
    create_task "write report" "high" "work" 1002 =
      create_task_surround_pre "write report" ++
        (taskId 1002 ++ create_task_surround_post "high" "work") :=
  create_task_distinct_draws_distinct_ids "write report" "high" "work" 1001 1002 (by decide)

/-- Claim C9: every payload a read_resource call can return is the
serialization of a fixed dictionary, hence parses as well-formed JSON. -/
theorem resource_payloads_wellformed_json :
    ∀ (uri : String) (p : ResourcePayload), read_resource uri = Except.ok p →
      ∃ j, parseJson p.text = some j := by
  intro uri p h
  unfold read_resource at h
  split_ifs at h with h1 h2 h3
  · injection h with h'
    subst h'
    exact ⟨productivity_methods_content, rfl⟩
  · injection h with h'
    subst h'
    exact ⟨focus_tips_content, rfl⟩
  · injection h with h'
    subst h'
    exact ⟨energy_management_content, rfl⟩

/-- Witness for C9 at the focus_tips resource. -/
theorem resource_payloads_wellformed_json_witness :
    ∃ j, parseJson (ResourcePayload.mk "application/json" focus_tips).text = some j :=
  resource_payloads_wellformed_json "resource://focus_tips"
    ⟨"application/json", focus_tips⟩ rfl

/-- Claim C10: for every integer input triple the reported score is at
most 100; in particular the completion rate can exceed 100 while the
score is still capped. -/
theorem productivity_score_capped_at_100 :
    (∀ completed planned focus_time : ℤ, score completed planned focus_time ≤ 100) ∧
    completion_rate 20 10 = 200 ∧ score 20 10 0 = 100 := by
  refine ⟨fun c p f => min_le_left _ _, ?_, ?_⟩
  · unfold completion_rate; norm_num
  · have hcr : completion_rate 20 10 = 200 := by unfold completion_rate; norm_num
    have hfh : focus_hours 0 = 0 := by unfold focus_hours; norm_num
    have hsum : (200 : ℚ) * (7 / 10) + 0 * 2 = 140 := by norm_num
    unfold score
    rw [hcr, hfh, hsum, min_def]
    norm_num

end Mcp
